import Mathlib

/-!
Shallow embedding of the Flask user service in `src/app.py`.

The service is four HTTP handlers over one relational table plus a
process-wide boolean `DATABASE_AVAILABLE` set once at startup by `init_db`.
Handlers are modelled as pure state transformers on `AppState`; the
relational store is an explicit `DBState`; JSON responses are values of a
small `Json` type paired with the HTTP status code, mirroring Flask's
`jsonify(...), code` pairs.  Failures of the external store driver
(connection loss, etc.) are injected through explicit `Option String`
fault parameters: `none` means the store operation executes normally,
`some msg` means the driver raises a generic exception with message `msg`.
The uniqueness-constraint violation (psycopg2.IntegrityError) is not a
free fault: it is raised exactly when the inserted email already occurs in
the table, as the UNIQUE column makes it.
-/

/-- JSON values, as produced by Flask's `jsonify`. -/
inductive Json where
  | str : String → Json
  | nat : Nat → Json
  | bool : Bool → Json
  | arr : List Json → Json
  | obj : List (String × Json) → Json
deriving Repr

/-- A row of the `users` table: `id SERIAL PRIMARY KEY`, `name`, `email`
(UNIQUE), `created_at TIMESTAMP DEFAULT CURRENT_TIMESTAMP`. -/
structure User where
  id : Nat
  name : String
  email : String
  created_at : Nat
deriving Repr, DecidableEq

/-- The state of the `users` table: its rows, the next value of the `id`
sequence, and a logical clock supplying `created_at` timestamps. -/
structure DBState where
  users : List User
  nextId : Nat
  clock : Nat
deriving Repr, DecidableEq

/-- The freshly initialized store: empty table, SERIAL sequence at 1. -/
def emptyDB : DBState := ⟨[], 1, 0⟩

/-- Process-wide application state: the global `DATABASE_AVAILABLE` flag
and the backing store. -/
structure AppState where
  DATABASE_AVAILABLE : Bool
  db : DBState
deriving Repr, DecidableEq

/-- The body of a POST request as parsed by `request.get_json()`:
`none` when absent/unparseable, otherwise a JSON object given as an
association list (string values suffice for this service). -/
abbrev Body := Option (List (String × String))

/-- Python truthiness test `not data`: true for a missing body (`None`)
and for an empty JSON object. -/
def bodyFalsy : Body → Bool
  | none => true
  | some l => l.isEmpty

/-- Python membership test `key in data` (false when there is no body). -/
def hasKey (b : Body) (k : String) : Bool :=
  match b with
  | none => false
  | some l => (l.lookup k).isSome

/-- Python subscript `data[key]` (defaulting, only used after `hasKey`). -/
def getKey (b : Body) (k : String) : String :=
  match b with
  | none => ""
  | some l => (l.lookup k).getD ""

/-- The ordering used by `SELECT * FROM users ORDER BY created_at DESC`:
`a` comes before `b` when `a.created_at ≥ b.created_at`. -/
def byCreatedDesc (a b : User) : Prop := b.created_at ≤ a.created_at

instance : DecidableRel byCreatedDesc := fun a b =>
  inferInstanceAs (Decidable (b.created_at ≤ a.created_at))

instance : IsTotal User byCreatedDesc :=
  ⟨fun a b => Nat.le_total b.created_at a.created_at⟩

instance : IsTrans User byCreatedDesc :=
  ⟨fun _ _ _ h1 h2 => Nat.le_trans h2 h1⟩

/-- The result set of the query in `get_users`. -/
def orderByCreatedDesc (l : List User) : List User :=
  List.insertionSort byCreatedDesc l

/-- Serialization of a row by the RealDictCursor + `jsonify`. -/
def userToJson (u : User) : Json :=
  Json.obj [("id", Json.nat u.id), ("name", Json.str u.name),
            ("email", Json.str u.email), ("created_at", Json.nat u.created_at)]

/-- Outcome of `INSERT INTO users (name, email) VALUES (%s, %s) RETURNING id`. -/
inductive InsertResult where
  | ok : Nat → DBState → InsertResult
  | integrityError : InsertResult
  | otherError : String → InsertResult
deriving Repr, DecidableEq

/-- The insert statement: a generic driver fault raises an ordinary
exception; otherwise the UNIQUE constraint on `email` raises
`psycopg2.IntegrityError` exactly when the email is already present;
otherwise the row is appended with the next SERIAL id and the current
timestamp. -/
def dbInsert (db : DBState) (name email : String) (fault : Option String) :
    InsertResult :=
  match fault with
  | some e => .otherError e
  | none =>
    if db.users.any (fun u => u.email == email) then .integrityError
    else .ok db.nextId
      { users := db.users ++ [⟨db.nextId, name, email, db.clock⟩],
        nextId := db.nextId + 1,
        clock := db.clock + 1 }

/-- `GET /` : the handler always returns 200; the body is the dynamic
database-status text interpolated into the static HTML page (the static
markup is elided). No state is written. -/
def index (s : AppState) : (String × Nat) × AppState :=
  ((if s.DATABASE_AVAILABLE then "Connected" else "Not Available (Demo Mode)", 200), s)

/-- `GET /health` : demo answer when the flag is down, otherwise a live
probe (`SELECT 1`) whose failure is reported inside a 200 body. -/
def health_check (s : AppState) (probeFault : Option String) :
    (Json × Nat) × AppState :=
  if !s.DATABASE_AVAILABLE then
    ((Json.obj [("status", Json.str "healthy"),
                ("database", Json.str "not_available"),
                ("mode", Json.str "demo_without_database")], 200), s)
  else
    match probeFault with
    | none =>
      ((Json.obj [("status", Json.str "healthy"),
                  ("database", Json.str "connected")], 200), s)
    | some e =>
      ((Json.obj [("status", Json.str "healthy"),
                  ("database", Json.str "error"),
                  ("error", Json.str e)], 200), s)

/-- `GET /users` : demo payload when the flag is down, otherwise the
ordered query, with driver failure mapped to 500. -/
def get_users (s : AppState) (fault : Option String) :
    (Json × Nat) × AppState :=
  if !s.DATABASE_AVAILABLE then
    ((Json.obj [("users", Json.arr []),
                ("message", Json.str "Database not available - running in demo mode"),
                ("demo_users", Json.arr
                  [Json.obj [("id", Json.nat 1), ("name", Json.str "Demo User 1"),
                             ("email", Json.str "demo1@example.com")],
                   Json.obj [("id", Json.nat 2), ("name", Json.str "Demo User 2"),
                             ("email", Json.str "demo2@example.com")]])], 200), s)
  else
    match fault with
    | some e => ((Json.obj [("error", Json.str e)], 500), s)
    | none =>
      ((Json.obj [("users",
          Json.arr ((orderByCreatedDesc s.db.users).map userToJson))], 200), s)

/-- `POST /users` : demo-mode short circuit, then presence validation of
`name` and `email`, then the insert with its three outcomes. -/
def create_user (s : AppState) (data : Body) (fault : Option String) :
    (Json × Nat) × AppState :=
  if !s.DATABASE_AVAILABLE then
    ((Json.obj [("message",
        Json.str "Database not available - user creation disabled in demo mode"),
      ("demo_mode", Json.bool true)], 200), s)
  else if bodyFalsy data || !hasKey data "name" || !hasKey data "email" then
    ((Json.obj [("error", Json.str "Name and email are required")], 400), s)
  else
    match dbInsert s.db (getKey data "name") (getKey data "email") fault with
    | .ok user_id db2 =>
      ((Json.obj [("id", Json.nat user_id),
                  ("message", Json.str "User created successfully")], 201),
       { s with db := db2 })
    | .integrityError =>
      ((Json.obj [("error", Json.str "Email already exists")], 409), s)
    | .otherError e =>
      ((Json.obj [("error", Json.str e)], 500), s)

/-- Which of the four sequential store operations of `init_db` fail. -/
structure InitFaults where
  connect : Bool
  createTable : Bool
  commit : Bool
  close : Bool
deriving Repr, DecidableEq

/-- The body of the `try` block of `init_db`: connect, issue
`CREATE TABLE IF NOT EXISTS users ...`, commit, close; the first failing
operation raises. -/
def init_db_steps (f : InitFaults) : Except String Unit :=
  if f.connect then .error "Database connection failed"
  else if f.createTable then .error "CREATE TABLE failed"
  else if f.commit then .error "commit failed"
  else if f.close then .error "close failed"
  else .ok ()

/-- `init_db` : on success set `DATABASE_AVAILABLE := true`; on any
exception set it to `false` and emit the two warnings — the exception is
swallowed, never propagated, so the function is total. The second
component collects the `logger.warning` output. -/
def init_db (f : InitFaults) (s : AppState) : AppState × List String :=
  match init_db_steps f with
  | .ok _ => ({ s with DATABASE_AVAILABLE := true }, [])
  | .error e =>
    ({ s with DATABASE_AVAILABLE := false },
     ["Database initialization failed: " ++ e,
      "App will run without database functionality"])

/-! ## Claim theorems -/

/-- Claim C1, counterexample: with `DATABASE_AVAILABLE = false`, a POST
/users body missing `name` is answered 200 (demo mode), not 400 — the
handler returns before validation runs, so the claimed "for every value of
the StoreAvailable flag" fails. -/
theorem create_user_unavailable_skips_validation :
    (create_user ⟨false, emptyDB⟩ (some [("email", "a@b.c")]) none).1.2 = 200 ∧
    ¬ (create_user ⟨false, emptyDB⟩ (some [("email", "a@b.c")]) none).1.2 = 400 := by
  constructor <;> decide

/-- Claim C1, amended: when `DATABASE_AVAILABLE = true`, every POST /users
request whose body is absent/empty or missing `name` or `email` is
answered 400 with the message naming the required fields, and the state —
in particular the store — is unchanged, whatever the store fault. -/
theorem create_user_validation (s : AppState) (data : Body) (fault : Option String)
    (hav : s.DATABASE_AVAILABLE = true)
    (hbad : bodyFalsy data = true ∨ hasKey data "name" = false ∨
            hasKey data "email" = false) :
    (create_user s data fault).1 =
      (Json.obj [("error", Json.str "Name and email are required")], 400) ∧
    (create_user s data fault).2 = s := by
  have hcond : (bodyFalsy data || !hasKey data "name" || !hasKey data "email") = true := by
    rcases hbad with h | h | h <;> simp [h]
  constructor <;> simp [create_user, hav, hcond]

/-- Witness for C1 amended at a concrete input: body with `name` only. -/
theorem create_user_validation_witness :
    (AppState.mk true emptyDB).DATABASE_AVAILABLE = true ∧
    (bodyFalsy (some [("name", "Ann")]) = true ∨
     hasKey (some [("name", "Ann")]) "name" = false ∨
     hasKey (some [("name", "Ann")]) "email" = false) ∧
    ((create_user ⟨true, emptyDB⟩ (some [("name", "Ann")]) none).1 =
      (Json.obj [("error", Json.str "Name and email are required")], 400) ∧
     (create_user ⟨true, emptyDB⟩ (some [("name", "Ann")]) none).2 = ⟨true, emptyDB⟩) :=
  ⟨rfl, Or.inr (Or.inr (by decide)),
   create_user_validation ⟨true, emptyDB⟩ (some [("name", "Ann")]) none rfl
     (Or.inr (Or.inr (by decide)))⟩

/-- Claim C5: with the store unavailable, GET /users always answers 200
with the empty list, an explanatory message and the demo payload; the
answer is independent of any store fault (no store access, never an
error status) and the state is unchanged. -/
theorem get_users_unavailable (db : DBState) (fault fault2 : Option String) :
    (get_users ⟨false, db⟩ fault).1 =
      (Json.obj [("users", Json.arr []),
                 ("message", Json.str "Database not available - running in demo mode"),
                 ("demo_users", Json.arr
                   [Json.obj [("id", Json.nat 1), ("name", Json.str "Demo User 1"),
                              ("email", Json.str "demo1@example.com")],
                    Json.obj [("id", Json.nat 2), ("name", Json.str "Demo User 2"),
                              ("email", Json.str "demo2@example.com")]])], 200) ∧
    get_users ⟨false, db⟩ fault = get_users ⟨false, db⟩ fault2 ∧
    (get_users ⟨false, db⟩ fault).2 = ⟨false, db⟩ := by
  refine ⟨by simp [get_users], by simp [get_users], by simp [get_users]⟩

/-- Claim C6: with the store unavailable, GET /health answers 200 with
healthy / not_available / demo mode, independently of any probe outcome
(no store access), leaving the state unchanged. -/
theorem health_check_unavailable (db : DBState) (pf pf2 : Option String) :
    (health_check ⟨false, db⟩ pf).1 =
      (Json.obj [("status", Json.str "healthy"),
                 ("database", Json.str "not_available"),
                 ("mode", Json.str "demo_without_database")], 200) ∧
    health_check ⟨false, db⟩ pf = health_check ⟨false, db⟩ pf2 ∧
    (health_check ⟨false, db⟩ pf).2 = ⟨false, db⟩ := by
  refine ⟨by simp [health_check], by simp [health_check], by simp [health_check]⟩

/-- Claim C7: with the store available, GET /health probes the store: a
successful probe yields 200 healthy/connected, and a failing probe yields
either 200 healthy with a database error field (this repository's
variant) or 500 unhealthy. -/
theorem health_check_available (db : DBState) :
    (health_check ⟨true, db⟩ none).1 =
      (Json.obj [("status", Json.str "healthy"),
                 ("database", Json.str "connected")], 200) ∧
    ∀ e, ((health_check ⟨true, db⟩ (some e)).1.2 = 200 ∧
          (health_check ⟨true, db⟩ (some e)).1.1 =
            Json.obj [("status", Json.str "healthy"),
                      ("database", Json.str "error"),
                      ("error", Json.str e)]) ∨
         (health_check ⟨true, db⟩ (some e)).1.2 = 500 := by
  exact ⟨by simp [health_check],
         fun e => Or.inl ⟨by simp [health_check], by simp [health_check]⟩⟩

/-- Claim C9: none of the four request handlers writes the
`DATABASE_AVAILABLE` flag: `index`, `health_check` and `get_users` leave
the whole state unchanged, and `create_user` (which may write the store)
preserves the flag, for every input and fault. -/
theorem handlers_never_write_availability (s : AppState) (data : Body)
    (pf qf f : Option String) :
    (index s).2 = s ∧
    (health_check s pf).2 = s ∧
    (get_users s qf).2 = s ∧
    (create_user s data f).2.DATABASE_AVAILABLE = s.DATABASE_AVAILABLE := by
  refine ⟨rfl, ?_, ?_, ?_⟩
  · unfold health_check
    split
    · rfl
    · split <;> rfl
  · unfold get_users
    split
    · rfl
    · split <;> rfl
  · unfold create_user
    split
    · rfl
    · split
      · rfl
      · split <;> rfl

/-- Claim C4: with the store available, GET /users without store fault
answers 200 with the full table serialized in `created_at`-descending
order (the returned sequence is a permutation of the table rows, sorted by
the descending order), and a store fault during the query is answered 500
carrying the error detail. -/
theorem get_users_available (db : DBState) :
    (get_users ⟨true, db⟩ none).1 =
      (Json.obj [("users",
         Json.arr ((orderByCreatedDesc db.users).map userToJson))], 200) ∧
    (orderByCreatedDesc db.users).Perm db.users ∧
    List.Sorted byCreatedDesc (orderByCreatedDesc db.users) ∧
    ∀ e, (get_users ⟨true, db⟩ (some e)).1 = (Json.obj [("error", Json.str e)], 500) := by
  refine ⟨by simp [get_users], ?_, ?_, fun e => by simp [get_users]⟩
  · simpa [orderByCreatedDesc] using List.perm_insertionSort byCreatedDesc db.users
  · simpa [orderByCreatedDesc] using List.sorted_insertionSort byCreatedDesc db.users

/-- Claim C8: `init_db` sets `DATABASE_AVAILABLE` to true exactly when
connection, CREATE TABLE, commit and close all succeed; on any failure the
flag is false and the failure is logged (warnings are emitted exactly in
the failure case); the function is total (the exception never propagates)
and never touches the table contents. -/
theorem init_db_flag (f : InitFaults) (s : AppState) :
    ((init_db f s).1.DATABASE_AVAILABLE = true ↔
      (f.connect = false ∧ f.createTable = false ∧ f.commit = false ∧
       f.close = false)) ∧
    ((init_db f s).1.DATABASE_AVAILABLE = false ↔ (init_db f s).2 ≠ []) ∧
    (init_db f s).1.db = s.db := by
  obtain ⟨c1, c2, c3, c4⟩ := f
  cases c1 <;> cases c2 <;> cases c3 <;> cases c4 <;>
    simp [init_db, init_db_steps]

/-- Claim C2: with the store available and no store fault, a valid body
whose email is fresh is answered 201 with the next SERIAL id (positive on
every reachable store, where the sequence starts at 1) and the message
`User created successfully`, and a subsequent GET /users answers 200 with
a list containing the record with that id, name and email. -/
theorem create_user_success (s : AppState) (data : List (String × String)) (n e : String)
    (hav : s.DATABASE_AVAILABLE = true)
    (hn : data.lookup "name" = some n)
    (he : data.lookup "email" = some e)
    (hfresh : s.db.users.any (fun u => u.email == e) = false)
    (hpos : 0 < s.db.nextId) :
    (create_user s (some data) none).1 =
      (Json.obj [("id", Json.nat s.db.nextId),
                 ("message", Json.str "User created successfully")], 201) ∧
    0 < s.db.nextId ∧
    ∃ l, (get_users (create_user s (some data) none).2 none).1 =
           (Json.obj [("users", Json.arr l)], 200) ∧
         userToJson ⟨s.db.nextId, n, e, s.db.clock⟩ ∈ l := by
  have hbf : bodyFalsy (some data) = false := by
    cases data with
    | nil => simp at hn
    | cons a t => rfl
  have hkn : hasKey (some data) "name" = true := by simp [hasKey, hn]
  have hke : hasKey (some data) "email" = true := by simp [hasKey, he]
  have hgn : getKey (some data) "name" = n := by simp [getKey, hn]
  have hge : getKey (some data) "email" = e := by simp [getKey, he]
  have hins : dbInsert s.db n e none = .ok s.db.nextId
      { users := s.db.users ++ [⟨s.db.nextId, n, e, s.db.clock⟩],
        nextId := s.db.nextId + 1, clock := s.db.clock + 1 } := by
    simp [dbInsert, hfresh]
  have hcu : create_user s (some data) none =
      ((Json.obj [("id", Json.nat s.db.nextId),
                  ("message", Json.str "User created successfully")], 201),
       { s with db := { users := s.db.users ++ [⟨s.db.nextId, n, e, s.db.clock⟩],
                        nextId := s.db.nextId + 1, clock := s.db.clock + 1 } }) := by
    simp [create_user, hav, hbf, hkn, hke, hgn, hge, hins]
  refine ⟨by rw [hcu], hpos, ?_⟩
  refine ⟨(orderByCreatedDesc
      (s.db.users ++ [⟨s.db.nextId, n, e, s.db.clock⟩])).map userToJson, ?_, ?_⟩
  · rw [hcu]
    simp [get_users, hav]
  · apply List.mem_map_of_mem
    have hmem : (⟨s.db.nextId, n, e, s.db.clock⟩ : User) ∈
        s.db.users ++ [⟨s.db.nextId, n, e, s.db.clock⟩] := by simp
    exact ((List.perm_insertionSort byCreatedDesc _).mem_iff).2 hmem

/-- Witness for C2 at the concrete input of the spec example. -/
theorem create_user_success_witness :
    (AppState.mk true emptyDB).DATABASE_AVAILABLE = true ∧
    [("name", "Ann"), ("email", "ann@x.com")].lookup "name" = some "Ann" ∧
    [("name", "Ann"), ("email", "ann@x.com")].lookup "email" = some "ann@x.com" ∧
    emptyDB.users.any (fun u => u.email == "ann@x.com") = false ∧
    0 < emptyDB.nextId ∧
    ((create_user ⟨true, emptyDB⟩
        (some [("name", "Ann"), ("email", "ann@x.com")]) none).1 =
      (Json.obj [("id", Json.nat emptyDB.nextId),
                 ("message", Json.str "User created successfully")], 201) ∧
     0 < emptyDB.nextId ∧
     ∃ l, (get_users (create_user ⟨true, emptyDB⟩
             (some [("name", "Ann"), ("email", "ann@x.com")]) none).2 none).1 =
            (Json.obj [("users", Json.arr l)], 200) ∧
          userToJson ⟨emptyDB.nextId, "Ann", "ann@x.com", emptyDB.clock⟩ ∈ l) :=
  ⟨rfl, by decide, by decide, rfl, by decide,
   create_user_success ⟨true, emptyDB⟩ [("name", "Ann"), ("email", "ann@x.com")]
     "Ann" "ann@x.com" rfl (by decide) (by decide) rfl (by decide)⟩

/-- Claim C3: with the store available, after a successful creation with a
fresh email `e` yields state `s1`, a second attempt with the same email
raises the driver's uniqueness violation and is answered 409 with the
"already exists" message, leaving the state unchanged so that exactly one
record with email `e` exists; any other store failure during the second
attempt is instead answered 500 with the error detail. -/
theorem create_user_duplicate_email (s s1 : AppState) (resp1 : Json × Nat)
    (n1 n2 e : String)
    (hav : s.DATABASE_AVAILABLE = true)
    (hfresh : s.db.users.any (fun u => u.email == e) = false)
    (h1 : create_user s (some [("name", n1), ("email", e)]) none = (resp1, s1)) :
    resp1.2 = 201 ∧
    create_user s1 (some [("name", n2), ("email", e)]) none =
      ((Json.obj [("error", Json.str "Email already exists")], 409), s1) ∧
    (s1.db.users.filter (fun u => u.email == e)).length = 1 ∧
    ∀ m, (create_user s1 (some [("name", n2), ("email", e)]) (some m)).1 =
           (Json.obj [("error", Json.str m)], 500) := by
  have hcu : create_user s (some [("name", n1), ("email", e)]) none =
      ((Json.obj [("id", Json.nat s.db.nextId),
                  ("message", Json.str "User created successfully")], 201),
       { s with db := { users := s.db.users ++ [⟨s.db.nextId, n1, e, s.db.clock⟩],
                        nextId := s.db.nextId + 1, clock := s.db.clock + 1 } }) := by
    simp [create_user, hav, bodyFalsy, hasKey, getKey, List.lookup, dbInsert, hfresh]
  rw [hcu] at h1
  injection h1 with hresp hs1
  subst hs1
  have hnil : s.db.users.filter (fun u => u.email == e) = [] :=
    List.filter_eq_nil_iff.2 (by
      intro a ha
      have hall := List.any_eq_false.1 hfresh
      exact hall a ha)
  refine ⟨by rw [← hresp], ?_, ?_, ?_⟩
  · simp [create_user, hav, bodyFalsy, hasKey, getKey, List.lookup, dbInsert,
          List.any_append, hfresh]
  · simp [List.filter_append, hnil]
  · intro m
    simp [create_user, hav, bodyFalsy, hasKey, getKey, List.lookup, dbInsert]

/-- Witness for C3 at a concrete input: Ann then Bob with the same email. -/
theorem create_user_duplicate_email_witness :
    (AppState.mk true emptyDB).DATABASE_AVAILABLE = true ∧
    emptyDB.users.any (fun u => u.email == "ann@x.com") = false ∧
    create_user ⟨true, emptyDB⟩ (some [("name", "Ann"), ("email", "ann@x.com")]) none =
      ((Json.obj [("id", Json.nat 1),
                  ("message", Json.str "User created successfully")], 201),
       ⟨true, ⟨[⟨1, "Ann", "ann@x.com", 0⟩], 2, 1⟩⟩) ∧
    ((Json.obj [("id", Json.nat 1),
                ("message", Json.str "User created successfully")],
      (201 : Nat)).2 = 201 ∧
     create_user ⟨true, ⟨[⟨1, "Ann", "ann@x.com", 0⟩], 2, 1⟩⟩
         (some [("name", "Bob"), ("email", "ann@x.com")]) none =
       ((Json.obj [("error", Json.str "Email already exists")], 409),
        ⟨true, ⟨[⟨1, "Ann", "ann@x.com", 0⟩], 2, 1⟩⟩) ∧
     ((AppState.mk true ⟨[⟨1, "Ann", "ann@x.com", 0⟩], 2, 1⟩).db.users.filter
        (fun u => u.email == "ann@x.com")).length = 1 ∧
     ∀ m, (create_user ⟨true, ⟨[⟨1, "Ann", "ann@x.com", 0⟩], 2, 1⟩⟩
             (some [("name", "Bob"), ("email", "ann@x.com")]) (some m)).1 =
           (Json.obj [("error", Json.str m)], 500)) :=
  ⟨rfl, rfl, rfl,
   create_user_duplicate_email ⟨true, emptyDB⟩
     ⟨true, ⟨[⟨1, "Ann", "ann@x.com", 0⟩], 2, 1⟩⟩
     (Json.obj [("id", Json.nat 1),
                ("message", Json.str "User created successfully")], 201)
     "Ann" "Bob" "ann@x.com" rfl rfl rfl⟩

/-- Claim C10: with the store available, validation only checks presence
of the `name` and `email` keys: a body binding both to the empty string is
never answered 400; the handler proceeds to the insert with the empty
strings unchanged, and when no fault occurs and no stored email is empty
the insert succeeds, storing the record with empty name and email. -/
theorem create_user_empty_strings (s : AppState) (fault : Option String)
    (hav : s.DATABASE_AVAILABLE = true) :
    (create_user s (some [("name", ""), ("email", "")]) fault).1.2 ≠ 400 ∧
    create_user s (some [("name", ""), ("email", "")]) fault =
      (match dbInsert s.db "" "" fault with
       | .ok user_id db2 =>
         ((Json.obj [("id", Json.nat user_id),
                     ("message", Json.str "User created successfully")], 201),
          { s with db := db2 })
       | .integrityError =>
         ((Json.obj [("error", Json.str "Email already exists")], 409), s)
       | .otherError e =>
         ((Json.obj [("error", Json.str e)], 500), s)) ∧
    ((s.db.users.any (fun u => u.email == "") = false ∧ fault = none) →
      (create_user s (some [("name", ""), ("email", "")]) fault).1.2 = 201 ∧
      (⟨s.db.nextId, "", "", s.db.clock⟩ : User) ∈
        (create_user s (some [("name", ""), ("email", "")]) fault).2.db.users) := by
  have hcu : create_user s (some [("name", ""), ("email", "")]) fault =
      (match dbInsert s.db "" "" fault with
       | .ok user_id db2 =>
         ((Json.obj [("id", Json.nat user_id),
                     ("message", Json.str "User created successfully")], 201),
          { s with db := db2 })
       | .integrityError =>
         ((Json.obj [("error", Json.str "Email already exists")], 409), s)
       | .otherError e =>
         ((Json.obj [("error", Json.str e)], 500), s)) := by
    simp [create_user, hav, bodyFalsy, hasKey, getKey, List.lookup]
  refine ⟨?_, hcu, ?_⟩
  · rw [hcu]
    cases h : dbInsert s.db "" "" fault <;> simp
  · rintro ⟨hfresh, rfl⟩
    rw [hcu]
    simp [dbInsert, hfresh]

/-- Witness for C10 at a concrete input: empty name and email on the
fresh store with no fault. -/
theorem create_user_empty_strings_witness :
    (AppState.mk true emptyDB).DATABASE_AVAILABLE = true ∧
    ((create_user ⟨true, emptyDB⟩ (some [("name", ""), ("email", "")]) none).1.2 ≠ 400 ∧
     create_user ⟨true, emptyDB⟩ (some [("name", ""), ("email", "")]) none =
       (match dbInsert emptyDB "" "" none with
        | .ok user_id db2 =>
          ((Json.obj [("id", Json.nat user_id),
                      ("message", Json.str "User created successfully")], 201),
           (⟨true, db2⟩ : AppState))
        | .integrityError =>
          ((Json.obj [("error", Json.str "Email already exists")], 409),
           (⟨true, emptyDB⟩ : AppState))
        | .otherError e =>
          ((Json.obj [("error", Json.str e)], 500),
           (⟨true, emptyDB⟩ : AppState))) ∧
     ((emptyDB.users.any (fun u => u.email == "") = false ∧
        (none : Option String) = none) →
       (create_user ⟨true, emptyDB⟩ (some [("name", ""), ("email", "")]) none).1.2 = 201 ∧
       (⟨emptyDB.nextId, "", "", emptyDB.clock⟩ : User) ∈
         (create_user ⟨true, emptyDB⟩
           (some [("name", ""), ("email", "")]) none).2.db.users)) :=
  ⟨rfl, create_user_empty_strings ⟨true, emptyDB⟩ none rfl⟩
